import Mathlib

/-!
Verification development for the TravelGuard decision-and-scoring controller.

The definitions below are a shallow embedding of the Python source:
- `calculate_total_score` embeds `analyze.py:calculate_total_score` (veto
  short-circuit plus weighted-mean quantization over seven categories);
- `should_analyze_country` embeds `analyze.py:should_analyze_country`
  (staleness rules over the last-scored lookup and the headlines file);
- `get_new_headlines` embeds `trigger.py:get_new_headlines` (delta of the
  current headline batch against the previously recorded batch);
- `triage_headlines` embeds `trigger.py:triage_headlines` (the cheap gate
  in front of the expensive analysis, with its failure policy);
- `persistTrace` embeds the persistence order of
  `analyze.py:analyze_country_layers` (base layer, then dependent layers).

Machine reals of the source are embedded as rationals: every comparison the
source performs is at distance at least 0.4/11 from the nearest threshold,
far above double rounding error, so rational and floating comparison agree.
-/

namespace TravelGuard

/-- The five-level ordinal rating scale of the source
(GREEN=1, YELLOW=2, ORANGE=3, RED=4, PURPLE=5). -/
inductive Rating where
  | GREEN
  | YELLOW
  | ORANGE
  | RED
  | PURPLE
deriving DecidableEq, Repr, Fintype

open Rating

/-- Integer rank of a rating: the `level_hierarchy` dict of the source. -/
def rank : Rating → ℕ
  | GREEN => 1
  | YELLOW => 2
  | ORANGE => 3
  | RED => 4
  | PURPLE => 5

/-- Rating at a given rank: the `reverse_hierarchy` dict of the source.
The source only ever indexes it with 4 or 5; other inputs map to GREEN. -/
def ofRank : ℕ → Rating
  | 1 => GREEN
  | 2 => YELLOW
  | 3 => ORANGE
  | 4 => RED
  | 5 => PURPLE
  | _ => GREEN

/-- The seven category ratings of one analysis record. The source reads them
from a dict with default GREEN; post-default every record has all seven. -/
structure CategoryScores where
  armed_conflict : Rating
  regional_instability : Rating
  terrorism : Rating
  civil_strife : Rating
  crime : Rating
  health : Rating
  infrastructure : Rating
deriving DecidableEq, Repr

/-- One step of the veto loop of `calculate_total_score`: a veto category
updates the running maximum only when its level is RED (4) or above. -/
def vetoStep (acc : ℕ) (r : Rating) : ℕ :=
  if 4 ≤ rank r then (if acc < rank r then rank r else acc) else acc

/-- The `max_veto_level` loop of `calculate_total_score`: fold over the four
veto categories starting from 1, counting only levels at least 4. -/
def maxVetoLevel (s : CategoryScores) : ℕ :=
  [s.armed_conflict, s.regional_instability, s.terrorism, s.civil_strife].foldl vetoStep 1

/-- The seven categories with their averaging weights, in source order:
veto categories weigh 2, non-veto categories weigh 1. -/
def allCats (s : CategoryScores) : List (Rating × ℕ) :=
  [(s.armed_conflict, 2), (s.regional_instability, 2), (s.terrorism, 2),
   (s.civil_strife, 2), (s.crime, 1), (s.health, 1), (s.infrastructure, 1)]

/-- The `weighted_sum` accumulator of `calculate_total_score`. -/
def weightedSum (s : CategoryScores) : ℕ :=
  (allCats s).foldl (fun acc p => acc + rank p.1 * p.2) 0

/-- The `total_weight` accumulator of `calculate_total_score`. -/
def totalWeight (s : CategoryScores) : ℕ :=
  (allCats s).foldl (fun acc p => acc + p.2) 0

/-- The threshold ladder at the end of `calculate_total_score`:
avg ≤ 1.4 → GREEN, ≤ 2.4 → YELLOW, ≤ 3.4 → ORANGE, ≤ 4.4 → RED, else PURPLE. -/
def quantize (avg : ℚ) : Rating :=
  if avg ≤ 14/10 then GREEN
  else if avg ≤ 24/10 then YELLOW
  else if avg ≤ 34/10 then ORANGE
  else if avg ≤ 44/10 then RED
  else PURPLE

/-- Embedding of `analyze.py:calculate_total_score`: if any veto category is
RED or PURPLE, return the highest such level directly; otherwise quantize the
weighted average of all seven categories. -/
def calculate_total_score (s : CategoryScores) : Rating :=
  if 4 ≤ maxVetoLevel s then
    ofRank (maxVetoLevel s)
  else
    quantize ((weightedSum s : ℚ) / (totalWeight s : ℚ))

/-- Maximum veto-category rank, written as the specification words it:
the plain maximum of the four veto ranks. -/
def specVetoMax (s : CategoryScores) : ℕ :=
  max (max (max (rank s.armed_conflict) (rank s.regional_instability))
        (rank s.terrorism)) (rank s.civil_strife)

/-- Modelled from the spec: the weighted mean over all seven categories with
each veto category at weight 2 and each non-veto category at weight 1,
total weight 11. -/
def spec_weighted_mean (s : CategoryScores) : ℚ :=
  ((2 * (rank s.armed_conflict + rank s.regional_instability
        + rank s.terrorism + rank s.civil_strife)
    + (rank s.crime + rank s.health + rank s.infrastructure) : ℕ) : ℚ) / 11

/-- Modelled from the spec: quantize a mean to a rating by the fixed
thresholds ≤ 1.4 → GREEN, ≤ 2.4 → YELLOW, ≤ 3.4 → ORANGE, ≤ 4.4 → RED,
else PURPLE. -/
def spec_quantize (m : ℚ) : Rating :=
  if m ≤ 14/10 then GREEN
  else if m ≤ 24/10 then YELLOW
  else if m ≤ 34/10 then ORANGE
  else if m ≤ 44/10 then RED
  else PURPLE

/-- Integer form of the quantization ladder over the weighted sum: with total
weight 11, mean ≤ 1.4 is weighted sum ≤ 15, ≤ 2.4 is ≤ 26, ≤ 3.4 is ≤ 37,
≤ 4.4 is ≤ 48. -/
def scoreQuant (w : ℕ) : Rating :=
  if w ≤ 15 then GREEN
  else if w ≤ 26 then YELLOW
  else if w ≤ 37 then ORANGE
  else if w ≤ 48 then RED
  else PURPLE

lemma rank_bounds (r : Rating) : 1 ≤ rank r ∧ rank r ≤ 5 := by
  cases r <;> simp [rank]

lemma rank_ofRank (n : ℕ) (h1 : 1 ≤ n) (h2 : n ≤ 5) : rank (ofRank n) = n := by
  interval_cases n <;> rfl

lemma vetoFold_char (a b c d : Rating) :
    [a, b, c, d].foldl vetoStep 1 =
      if 4 ≤ max (max (max (rank a) (rank b)) (rank c)) (rank d) then
        max (max (max (rank a) (rank b)) (rank c)) (rank d)
      else 1 := by
  cases a <;> cases b <;> cases c <;> cases d <;> decide

lemma maxVetoLevel_eq (s : CategoryScores) :
    maxVetoLevel s = if 4 ≤ specVetoMax s then specVetoMax s else 1 :=
  vetoFold_char s.armed_conflict s.regional_instability s.terrorism s.civil_strife

lemma weightedSum_eq (s : CategoryScores) :
    weightedSum s =
      2 * (rank s.armed_conflict + rank s.regional_instability
          + rank s.terrorism + rank s.civil_strife)
      + (rank s.crime + rank s.health + rank s.infrastructure) := by
  simp [weightedSum, allCats]
  ring

lemma totalWeight_eq (s : CategoryScores) : totalWeight s = 11 := rfl

lemma mean_le_iff (w t : ℕ) (c : ℚ) (hct : c * 11 < t + 1) (htc : (t : ℚ) ≤ c * 11) :
    ((w : ℚ) / 11 ≤ c) ↔ w ≤ t := by
  rw [div_le_iff₀ (by norm_num : (0:ℚ) < 11)]
  constructor
  · intro h
    have hw : (w : ℚ) < (t : ℚ) + 1 := lt_of_le_of_lt h hct
    have hw2 : w < t + 1 := by exact_mod_cast hw
    omega
  · intro h
    calc (w : ℚ) ≤ (t : ℚ) := by exact_mod_cast h
    _ ≤ c * 11 := htc

lemma quantize_div11 (w : ℕ) : quantize ((w : ℚ) / 11) = scoreQuant w := by
  unfold quantize scoreQuant
  simp only [mean_le_iff w 15 (14/10) (by norm_num) (by norm_num),
      mean_le_iff w 26 (24/10) (by norm_num) (by norm_num),
      mean_le_iff w 37 (34/10) (by norm_num) (by norm_num),
      mean_le_iff w 48 (44/10) (by norm_num) (by norm_num)]

/-- Bridge: the source scorer equals the integer-arithmetic form (veto
short-circuit on the plain maximum, else the integer quantization ladder). -/
lemma calculate_total_score_eq (s : CategoryScores) :
    calculate_total_score s =
      if 4 ≤ specVetoMax s then ofRank (specVetoMax s)
      else scoreQuant (weightedSum s) := by
  unfold calculate_total_score
  rw [maxVetoLevel_eq]
  by_cases h : 4 ≤ specVetoMax s
  · simp [h]
  · simp only [h, if_false, if_neg (by omega : ¬ (4:ℕ) ≤ 1)]
    rw [totalWeight_eq]
    norm_num [quantize_div11]

lemma spec_quantize_eq_quantize (m : ℚ) : spec_quantize m = quantize m := rfl

lemma specq_eq (s : CategoryScores) :
    spec_quantize (spec_weighted_mean s) = scoreQuant (weightedSum s) := by
  rw [spec_weighted_mean, spec_quantize_eq_quantize, quantize_div11, weightedSum_eq]

lemma scoreQuant_mono {w w2 : ℕ} (h : w ≤ w2) :
    rank (scoreQuant w) ≤ rank (scoreQuant w2) := by
  unfold scoreQuant
  split_ifs <;> simp [rank] <;> omega

lemma rank_scoreQuant_le_four (w : ℕ) (hw : w ≤ 48) : rank (scoreQuant w) ≤ 4 := by
  unfold scoreQuant
  split_ifs <;> simp [rank]

example : calculate_total_score ⟨PURPLE, GREEN, GREEN, GREEN, GREEN, GREEN, GREEN⟩ = PURPLE := by
  rw [calculate_total_score_eq]
  decide

example : calculate_total_score ⟨YELLOW, YELLOW, YELLOW, YELLOW, YELLOW, YELLOW, YELLOW⟩ = YELLOW := by
  rw [calculate_total_score_eq]
  decide

example : calculate_total_score ⟨GREEN, GREEN, GREEN, GREEN, ORANGE, GREEN, GREEN⟩ = GREEN := by
  rw [calculate_total_score_eq]
  decide

lemma specVetoMax_le_five (s : CategoryScores) : specVetoMax s ≤ 5 := by
  have h1 := rank_bounds s.armed_conflict
  have h2 := rank_bounds s.regional_instability
  have h3 := rank_bounds s.terrorism
  have h4 := rank_bounds s.civil_strife
  simp only [specVetoMax]
  omega

/-- Claim C1: when the maximum veto-category rank is RED (4) or above, the
composite scorer returns exactly the rating at that maximum veto rank,
whatever the non-veto categories hold. -/
theorem veto_short_circuit (s : CategoryScores) (h : 4 ≤ specVetoMax s) :
    calculate_total_score s = ofRank (specVetoMax s) := by
  rw [calculate_total_score_eq, if_pos h]

/-- Claim C1 witness: armed_conflict PURPLE with everything else GREEN gives
maximum veto rank 5, so the scorer returns the rating at rank 5. -/
theorem veto_short_circuit_witness :
    4 ≤ specVetoMax ⟨PURPLE, GREEN, GREEN, GREEN, GREEN, GREEN, GREEN⟩ ∧
    calculate_total_score ⟨PURPLE, GREEN, GREEN, GREEN, GREEN, GREEN, GREEN⟩ =
      ofRank (specVetoMax ⟨PURPLE, GREEN, GREEN, GREEN, GREEN, GREEN, GREEN⟩) :=
  ⟨by decide, veto_short_circuit ⟨PURPLE, GREEN, GREEN, GREEN, GREEN, GREEN, GREEN⟩ (by decide)⟩

/-- Claim C2: when every veto category is at most ORANGE (3), the composite
scorer returns the weighted mean of the seven ranks (veto weight 2, non-veto
weight 1, total weight 11) quantized by the 1.4 / 2.4 / 3.4 / 4.4 ladder. -/
theorem weighted_mean_path (s : CategoryScores) (h : specVetoMax s ≤ 3) :
    calculate_total_score s = spec_quantize (spec_weighted_mean s) := by
  rw [calculate_total_score_eq, if_neg (by omega), specq_eq]

/-- Claim C2 witness: all seven categories YELLOW quantizes the mean 2.0
to YELLOW. -/
theorem weighted_mean_path_witness :
    specVetoMax ⟨YELLOW, YELLOW, YELLOW, YELLOW, YELLOW, YELLOW, YELLOW⟩ ≤ 3 ∧
    calculate_total_score ⟨YELLOW, YELLOW, YELLOW, YELLOW, YELLOW, YELLOW, YELLOW⟩ =
      spec_quantize (spec_weighted_mean ⟨YELLOW, YELLOW, YELLOW, YELLOW, YELLOW, YELLOW, YELLOW⟩) :=
  ⟨by decide, weighted_mean_path ⟨YELLOW, YELLOW, YELLOW, YELLOW, YELLOW, YELLOW, YELLOW⟩ (by decide)⟩

/-- Claim C7: when some veto category is RED or above, the rating the veto
short-circuit returns is at least the rating the weighted-mean path would
produce on the same input: the veto rule never lowers the composite. -/
theorem veto_never_lowers (s : CategoryScores) (h : 4 ≤ specVetoMax s) :
    rank (spec_quantize (spec_weighted_mean s)) ≤ rank (calculate_total_score s) := by
  rw [calculate_total_score_eq, if_pos h, rank_ofRank _ (by omega) (specVetoMax_le_five s),
    specq_eq]
  by_cases h5 : specVetoMax s = 5
  · rw [h5]
    exact (rank_bounds _).2
  · have hM : specVetoMax s = 4 := by
      have := specVetoMax_le_five s
      omega
    have hac := rank_bounds s.armed_conflict
    have hri := rank_bounds s.regional_instability
    have hte := rank_bounds s.terrorism
    have hcs := rank_bounds s.civil_strife
    have hcr := rank_bounds s.crime
    have hhe := rank_bounds s.health
    have hin := rank_bounds s.infrastructure
    have hv : rank s.armed_conflict ≤ 4 ∧ rank s.regional_instability ≤ 4 ∧
        rank s.terrorism ≤ 4 ∧ rank s.civil_strife ≤ 4 := by
      simp only [specVetoMax] at hM
      omega
    have hw : weightedSum s ≤ 48 := by
      rw [weightedSum_eq]
      omega
    have := rank_scoreQuant_le_four (weightedSum s) hw
    omega

/-- Claim C7 witness: armed_conflict RED with everything else GREEN takes the
veto path, which dominates the weighted-mean result. -/
theorem veto_never_lowers_witness :
    4 ≤ specVetoMax ⟨RED, GREEN, GREEN, GREEN, GREEN, GREEN, GREEN⟩ ∧
    rank (spec_quantize (spec_weighted_mean ⟨RED, GREEN, GREEN, GREEN, GREEN, GREEN, GREEN⟩)) ≤
      rank (calculate_total_score ⟨RED, GREEN, GREEN, GREEN, GREEN, GREEN, GREEN⟩) :=
  ⟨by decide, veto_never_lowers ⟨RED, GREEN, GREEN, GREEN, GREEN, GREEN, GREEN⟩ (by decide)⟩

lemma div11_ne_frac (w n : ℕ) (hn : ¬ 10 ∣ 11 * n) : (w : ℚ) / 11 ≠ (n : ℚ) / 10 := by
  intro h
  rw [div_eq_div_iff (by norm_num) (by norm_num)] at h
  have h2 : 10 * w = 11 * n := by
    have : ((10 * w : ℕ) : ℚ) = ((11 * n : ℕ) : ℚ) := by
      push_cast
      linarith
    exact_mod_cast this
  exact hn ⟨w, h2.symm⟩

/-- Claim C8: for every CategoryScores, the exact weighted mean
weightedSum / 11 equals none of the quantization boundaries 1.4, 2.4, 3.4,
4.4, so every input falls strictly inside one quantization band. -/
theorem mean_never_on_boundary (s : CategoryScores) :
    (weightedSum s : ℚ) / 11 ≠ 14/10 ∧ (weightedSum s : ℚ) / 11 ≠ 24/10 ∧
    (weightedSum s : ℚ) / 11 ≠ 34/10 ∧ (weightedSum s : ℚ) / 11 ≠ 44/10 := by
  refine ⟨?_, ?_, ?_, ?_⟩
  · have h := div11_ne_frac (weightedSum s) 14 (by decide)
    simpa using h
  · have h := div11_ne_frac (weightedSum s) 24 (by decide)
    simpa using h
  · have h := div11_ne_frac (weightedSum s) 34 (by decide)
    simpa using h
  · have h := div11_ne_frac (weightedSum s) 44 (by decide)
    simpa using h

/-- The seven category names of the record, for speaking about a single
category update. -/
inductive Category where
  | armed_conflict
  | regional_instability
  | terrorism
  | civil_strife
  | crime
  | health
  | infrastructure
deriving DecidableEq, Repr

/-- Read one category of a CategoryScores record. -/
def getCat (s : CategoryScores) : Category → Rating
  | .armed_conflict => s.armed_conflict
  | .regional_instability => s.regional_instability
  | .terrorism => s.terrorism
  | .civil_strife => s.civil_strife
  | .crime => s.crime
  | .health => s.health
  | .infrastructure => s.infrastructure

/-- Replace one category of a CategoryScores record. -/
def setCat (s : CategoryScores) : Category → Rating → CategoryScores
  | .armed_conflict, r => { s with armed_conflict := r }
  | .regional_instability, r => { s with regional_instability := r }
  | .terrorism, r => { s with terrorism := r }
  | .civil_strife, r => { s with civil_strife := r }
  | .crime, r => { s with crime := r }
  | .health, r => { s with health := r }
  | .infrastructure, r => { s with infrastructure := r }

/-- Pointwise rank order on CategoryScores records. -/
def pointwiseLe (s t : CategoryScores) : Prop :=
  rank s.armed_conflict ≤ rank t.armed_conflict ∧
  rank s.regional_instability ≤ rank t.regional_instability ∧
  rank s.terrorism ≤ rank t.terrorism ∧
  rank s.civil_strife ≤ rank t.civil_strife ∧
  rank s.crime ≤ rank t.crime ∧
  rank s.health ≤ rank t.health ∧
  rank s.infrastructure ≤ rank t.infrastructure

lemma score_mono (s t : CategoryScores) (h : pointwiseLe s t) :
    rank (calculate_total_score s) ≤ rank (calculate_total_score t) := by
  obtain ⟨h1, h2, h3, h4, h5, h6, h7⟩ := h
  rw [calculate_total_score_eq, calculate_total_score_eq]
  have hM : specVetoMax s ≤ specVetoMax t := by
    simp only [specVetoMax]
    omega
  have hW : weightedSum s ≤ weightedSum t := by
    rw [weightedSum_eq, weightedSum_eq]
    omega
  have hsb := specVetoMax_le_five s
  have htb := specVetoMax_le_five t
  by_cases hs : 4 ≤ specVetoMax s
  · rw [if_pos hs, if_pos (le_trans hs hM)]
    rw [rank_ofRank _ (by omega) hsb, rank_ofRank _ (by omega) htb]
    exact hM
  · rw [if_neg hs]
    by_cases ht : 4 ≤ specVetoMax t
    · rw [if_pos ht, rank_ofRank _ (by omega) htb]
      have hv : rank s.armed_conflict ≤ 3 ∧ rank s.regional_instability ≤ 3 ∧
          rank s.terrorism ≤ 3 ∧ rank s.civil_strife ≤ 3 := by
        simp only [specVetoMax] at hs
        omega
      have hcr := rank_bounds s.crime
      have hhe := rank_bounds s.health
      have hin := rank_bounds s.infrastructure
      have hw : weightedSum s ≤ 48 := by
        rw [weightedSum_eq]
        omega
      have := rank_scoreQuant_le_four (weightedSum s) hw
      omega
    · rw [if_neg ht]
      exact scoreQuant_mono hW

/-- Claim C10: the composite scorer is monotone in each category: raising any
single category while holding the others fixed never lowers the composite
rating, under the rank order GREEN < YELLOW < ORANGE < RED < PURPLE. -/
theorem single_category_monotone (s : CategoryScores) (c : Category) (r : Rating)
    (h : rank (getCat s c) ≤ rank r) :
    rank (calculate_total_score s) ≤ rank (calculate_total_score (setCat s c r)) := by
  apply score_mono
  cases c <;> simp_all [pointwiseLe, setCat, getCat]

/-- Claim C10 witness: raising terrorism from YELLOW to RED on an otherwise
YELLOW record does not lower the composite. -/
theorem single_category_monotone_witness :
    rank (getCat ⟨YELLOW, YELLOW, YELLOW, YELLOW, YELLOW, YELLOW, YELLOW⟩ Category.terrorism) ≤ rank RED ∧
    rank (calculate_total_score ⟨YELLOW, YELLOW, YELLOW, YELLOW, YELLOW, YELLOW, YELLOW⟩) ≤
      rank (calculate_total_score
        (setCat ⟨YELLOW, YELLOW, YELLOW, YELLOW, YELLOW, YELLOW, YELLOW⟩ Category.terrorism RED)) :=
  ⟨by decide,
    single_category_monotone ⟨YELLOW, YELLOW, YELLOW, YELLOW, YELLOW, YELLOW, YELLOW⟩
      Category.terrorism RED (by decide)⟩

/-- Outcome of the last-scored lookup in the store: the query itself can
fail, find no row, or return the most recent scored_at time (in seconds). -/
inductive ScoresLookup where
  | failure
  | noRecord
  | lastScored (t : ℚ)

/-- State of the headlines file when the staleness check reads it: the file
can be absent, unreadable, readable without a timestamp field, or carry a
batch timestamp (in seconds). -/
inductive HeadlinesState where
  | missing
  | corrupt
  | noTimestamp
  | withTs (t : ℚ)

/-- Embedding of `analyze.py:should_analyze_country`. A store failure and a
missing row both return true; a record older than 24 hours returns true;
otherwise the headlines file decides: absent or unreadable returns true,
present without a timestamp returns false, present with a timestamp returns
whether the batch is strictly newer than the last scoring. -/
def should_analyze_country (now : ℚ) (lookup : ScoresLookup) (hs : HeadlinesState) : Bool :=
  match lookup with
  | .failure => true
  | .noRecord => true
  | .lastScored last =>
    if (now - last) / 3600 > 24 then true
    else
      match hs with
      | .missing => true
      | .corrupt => true
      | .noTimestamp => false
      | .withTs t => decide (t > last)

/-- Modelled from the claim wording of C3: the four rules in order, with the
absence of the headline-batch record counted as no new data (skip), and a
lookup failure defaulting to analyze. -/
def claim_should_analyze (now : ℚ) (lookup : ScoresLookup) (hs : HeadlinesState) : Bool :=
  match lookup with
  | .failure => true
  | .noRecord => true
  | .lastScored last =>
    if now - last > 86400 then true
    else
      match hs with
      | .withTs t => decide (t > last)
      | _ => false

/-- Modelled from the claim wording of C3 as amended: the same rules except
that a headline-batch file that is absent or unreadable defaults to analyze;
only a present batch record without a timestamp counts as no new data. -/
def amended_should_analyze (now : ℚ) (lookup : ScoresLookup) (hs : HeadlinesState) : Bool :=
  match lookup with
  | .failure => true
  | .noRecord => true
  | .lastScored last =>
    if now - last > 86400 then true
    else
      match hs with
      | .missing => true
      | .corrupt => true
      | .noTimestamp => false
      | .withTs t => decide (t > last)

lemma hours_gt (x : ℚ) : x / 3600 > 24 ↔ x > 86400 := by
  rw [gt_iff_lt, lt_div_iff₀ (by norm_num : (0:ℚ) < 3600)]
  norm_num

/-- Claim C3 counterexample: a fresh prior analysis (scored at the current
instant) with the headlines file absent makes the code analyze, while the
claim says absence of the batch record counts as no new data and skips. -/
theorem staleness_missing_file_counterexample :
    should_analyze_country 0 (ScoresLookup.lastScored 0) HeadlinesState.missing ≠
      claim_should_analyze 0 (ScoresLookup.lastScored 0) HeadlinesState.missing := by
  simp [should_analyze_country, claim_should_analyze]

/-- Claim C3 as amended: the staleness check follows the four rules in order
(no record → analyze, older than 24 hours → analyze, newer batch timestamp →
analyze, otherwise skip), with a lookup failure defaulting to analyze, an
absent or unreadable headlines file defaulting to analyze, and only a present
batch without a timestamp counting as no new data. -/
theorem staleness_rules (now : ℚ) (lookup : ScoresLookup) (hs : HeadlinesState) :
    should_analyze_country now lookup hs = amended_should_analyze now lookup hs := by
  cases lookup with
  | failure => rfl
  | noRecord => rfl
  | lastScored last =>
    simp only [should_analyze_country, amended_should_analyze, hours_gt]

/-- Embedding of `trigger.py:get_new_headlines`. `none` stands for a missing
or unreadable previous-batch file; otherwise the previous headline list is
turned into a set (here: deduplicated) and the current list is filtered to
the strings not in it, keeping current order. The source returns an empty
list explicitly when nothing is new. -/
def get_new_headlines (current : List String) (previous : Option (List String)) : List String :=
  match previous with
  | none => current
  | some prevList =>
    let previous_headlines := prevList.dedup
    let new_headlines := current.filter (fun h => !previous_headlines.contains h)
    if new_headlines.isEmpty then [] else new_headlines

/-- Claim C4: with no previous batch the current list is returned unchanged;
with a previous batch the result is exactly the members of current absent
from the previous list of strings, as a stable filter of current (hence a
sublist, preserving the original order), compared by string equality. -/
theorem delta_tracker (current prevList : List String) :
    get_new_headlines current none = current ∧
    get_new_headlines current (some prevList) =
      current.filter (fun h => !prevList.contains h) ∧
    (get_new_headlines current (some prevList)).Sublist current := by
  have hfilter : get_new_headlines current (some prevList) =
      current.filter (fun h => !prevList.contains h) := by
    simp only [get_new_headlines]
    have hcong : current.filter (fun h => !(prevList.dedup).contains h) =
        current.filter (fun h => !prevList.contains h) := by
      apply List.filter_congr
      intro h _
      simp [List.elem_iff, List.mem_dedup]
    rw [hcong]
    split
    · next hempty =>
      rw [List.isEmpty_iff] at hempty
      exact hempty.symm
    · rfl
  refine ⟨rfl, hfilter, ?_⟩
  rw [hfilter]
  exact List.filter_sublist current

example : get_new_headlines ["a", "b", "c"] (some ["b"]) = ["a", "c"] := by decide

/-- What the triage gate returns, plus how many reasoning-service calls it
made while doing so. -/
structure TriageOutcome where
  trigger : Bool
  reason : String
  calls : ℕ
deriving DecidableEq, Repr

/-- The triage request body built by `trigger.py:triage_headlines`: the first
forty headlines as a dashed list inside the fixed instruction text (the text
itself is abridged here; the spec scopes prompt wording out). -/
def triage_prompt (headlines : List String) : String :=
  let headlines_text := String.intercalate "\n" ((headlines.take 40).map (fun h => "- " ++ h))
  "You are a travel security analyst. Review these news headlines.\n"
    ++ headlines_text
    ++ "\nRespond with ONE of these:\nTHREAT\nSAFE\nThen on next line, briefly explain."

/-- The reason extraction of `trigger.py:triage_headlines`: everything after
the first newline when one exists, otherwise the whole response. -/
def splitReason (result : String) : String :=
  if result.contains '\n' then
    match result.splitOn "\n" with
    | [] => result
    | _ :: rest => String.intercalate "\n" rest
  else result

/-- Embedding of `trigger.py:triage_headlines`. The reasoning service is an
oracle from the prompt to either an error message or a response text. Empty
input short-circuits with no call; a service error yields no trigger; a
response triggers exactly when its stripped text starts with THREAT after
uppercasing. -/
def triage_headlines (headlines : List String) (svc : String → Except String String) :
    TriageOutcome :=
  if headlines.isEmpty then ⟨false, "No headlines to analyze", 0⟩
  else
    match svc (triage_prompt headlines) with
    | .error e => ⟨false, "Error: " ++ e, 1⟩
    | .ok text =>
      let result := text.trim
      ⟨(result.toUpper).startsWith "THREAT", splitReason result, 1⟩

/-- A reasoning service that always fails, for concrete runs of the gate. -/
def svcFail : String → Except String String := fun _ => .error ""

/-- Claim C5 counterexample: on empty input the gate does return a false
trigger and makes no call, but its reason string is the source literal
"No headlines to analyze", not the claimed pair component "no headlines". -/
theorem triage_empty_counterexample :
    triage_headlines [] svcFail ≠
      ⟨false, "no headlines", 0⟩ := by
  decide

/-- Claim C5 as amended: on empty input the gate returns a false trigger with
the reason "No headlines to analyze" and makes no reasoning-service call,
whatever the service would answer. -/
theorem triage_empty (svc : String → Except String String) :
    triage_headlines [] svc = ⟨false, "No headlines to analyze", 0⟩ := rfl

/-- A response verdict is malformed when, after stripping and uppercasing, it
starts with neither THREAT nor SAFE. -/
def malformedVerdict (text : String) : Prop :=
  ¬ ((text.trim.toUpper).startsWith "THREAT") ∧ ¬ ((text.trim.toUpper).startsWith "SAFE")

/-- Claim C9: on any non-empty headline list, a failing reasoning-service
call yields a no-trigger decision, and so does any malformed response. -/
theorem triage_fails_closed (headlines : List String) (svc : String → Except String String)
    (hne : headlines ≠ []) :
    (∀ e, svc (triage_prompt headlines) = .error e →
      (triage_headlines headlines svc).trigger = false) ∧
    (∀ text, svc (triage_prompt headlines) = .ok text → malformedVerdict text →
      (triage_headlines headlines svc).trigger = false) := by
  have hemp : headlines.isEmpty = false := by
    simpa [List.isEmpty_iff] using hne
  constructor
  · intro e he
    simp [triage_headlines, hemp, he]
  · intro text ht hmal
    simp only [triage_headlines, hemp, Bool.false_eq_true, if_false, ht]
    simpa using hmal.1

/-- Claim C9 witness: one headline with a failing service produces a false
trigger. -/
theorem triage_fails_closed_witness :
    (["riot downtown"] : List String) ≠ [] ∧
    (triage_headlines ["riot downtown"] svcFail).trigger = false :=
  ⟨by decide, (triage_fails_closed ["riot downtown"] svcFail (by decide)).1 "" rfl⟩

/-- The three identity layers run by `analyze.py:analyze_country_layers` for
one country, in source order: base first, then the two dependent layers. -/
inductive Layer where
  | base
  | jewish_israeli
  | solo_women
deriving DecidableEq, Repr

/-- One run of the per-country orchestrator, abstracted to what decides its
persistence behavior: per layer, whether the analysis call produced a result
(non-None and not blocked by verification) and whether its store call
succeeded. -/
structure LayerRun where
  analysisOk : Layer → Bool
  storeOk : Layer → Bool

/-- Embedding of the persistence order of `analyze.py:analyze_country_layers`:
the sequence of layers whose AnalysisResult is actually persisted, in the
order the store calls succeed during the run. Each layer is stored only when
its analysis produced a result, and the three layers are processed strictly
in source order: base, jewish_israeli, solo_women. -/
def persistTrace (run : LayerRun) : List Layer :=
  (if run.analysisOk .base && run.storeOk .base then [Layer.base] else []) ++
  (if run.analysisOk .jewish_israeli && run.storeOk .jewish_israeli
    then [Layer.jewish_israeli] else []) ++
  (if run.analysisOk .solo_women && run.storeOk .solo_women then [Layer.solo_women] else [])

/-- Claim C6 reading of the trace: every persisted dependent layer is
preceded in the trace by a persisted base layer. -/
def dependentAfterBase (tr : List Layer) : Prop :=
  ∀ i l, tr[i]? = some l → l ≠ Layer.base → Layer.base ∈ tr.take i

/-- A run in which the base analysis call fails but both dependent layers
succeed and store fine. -/
def baseFailsRun : LayerRun :=
  ⟨fun l => match l with | .base => false | _ => true, fun _ => true⟩

/-- Claim C6 counterexample: when the base analysis fails, the source still
persists the dependent layers, so a dependent result is persisted in a run
where the base result is never persisted at all. -/
theorem dependent_layer_counterexample :
    ¬ dependentAfterBase (persistTrace baseFailsRun) := by
  intro hprop
  have := hprop 0 Layer.jewish_israeli (by decide) (by decide)
  simp at this

/-- Claim C6 as amended: whenever the base AnalysisResult is persisted in a
run, it is the first persisted result of that run, so no dependent layer is
persisted before it; when the base result is never persisted (its analysis or
store call failed), dependent layers may still be persisted. -/
theorem base_persisted_first (run : LayerRun) (h : Layer.base ∈ persistTrace run) :
    ∃ rest, persistTrace run = Layer.base :: rest := by
  unfold persistTrace at h ⊢
  by_cases hb : (run.analysisOk .base && run.storeOk .base) = true
  · rw [if_pos hb]
    exact ⟨_, rfl⟩
  · rw [if_neg hb] at h
    simp only [List.nil_append] at h
    exfalso
    rcases List.mem_append.mp h with h1 | h1 <;> split at h1 <;> simp_all

/-- Claim C6 witness: in a run where every call succeeds, the base layer is
persisted and heads the trace. -/
theorem base_persisted_first_witness :
    Layer.base ∈ persistTrace ⟨fun _ => true, fun _ => true⟩ ∧
    ∃ rest, persistTrace ⟨fun _ => true, fun _ => true⟩ = Layer.base :: rest :=
  ⟨by decide, base_persisted_first ⟨fun _ => true, fun _ => true⟩ (by decide)⟩

end TravelGuard
